import Mathlib

/-!
# TempCycleDMA — verification of the main cyclic executor

Shallow embedding of `src/main.c`: a repeating hardware timer callback sets a
volatile boolean flag (`g_executar_ciclo_tarefas`); the cooperative main loop
polls the flag and, when set, clears it and runs the task sequence
(temperature reading, extra neopixel task, trend analysis, OLED display,
neopixel control, serial report).

Temperatures (C `float`) are modelled as rationals; wall-clock time
(`absolute_time_t`) as a natural-number clock advanced by each
`get_absolute_time` read; external I/O (DMA acquisition, OLED, neopixel,
`sleep_ms`, `printf`) as a trace of events.  The asynchronous timer callback
may preempt the main context at any task boundary, which suffices because the
callback touches only the flag and the main context reads the flag only at
its poll point.
-/

namespace TempCycleDMA

/-- Modelled from the spec: the trend type `tendencia_t` is declared in
`tarefa3_tendencia.h`, which is absent from `src/`; the spec fixes the
categories as one of Unknown, Rising, Falling, Stable. -/
inductive tendencia_t where
  | Unknown : tendencia_t
  | Rising : tendencia_t
  | Falling : tendencia_t
  | Stable : tendencia_t
deriving DecidableEq, Repr

/-- Modelled from the spec: the classification threshold is a build-time
constant never stated exactly in the source; the spec suggests 0.2. -/
def LIMIAR_TENDENCIA : ℚ := 1/5

/-- Modelled from the spec: `tarefa3_analisa_tendencia` lives in
`tarefa3_tendencia.c`, absent from `src/`.  Stateful over a one-deep history
(the previous mean): first call returns Unknown; later calls compare the new
value against the previous one with the threshold.  Returns the category and
the updated history. -/
def tarefa3_analisa_tendencia (hist : Option ℚ) (v : ℚ) : tendencia_t × Option ℚ :=
  match hist with
  | none => (tendencia_t.Unknown, some v)
  | some prev =>
      (if v - prev > LIMIAR_TENDENCIA then tendencia_t.Rising
       else if v - prev < -LIMIAR_TENDENCIA then tendencia_t.Falling
       else tendencia_t.Stable, some v)

/-- Modelled from the spec: `tendencia_para_texto` lives in
`tarefa3_tendencia.c`, absent from `src/`; it renders the trend as one of a
fixed small set of category names. -/
def tendencia_para_texto : tendencia_t → String
  | tendencia_t.Unknown => "Indefinida"
  | tendencia_t.Rising => "Subindo"
  | tendencia_t.Falling => "Caindo"
  | tendencia_t.Stable => "Estavel"

/-- The global variables of `main.c` (lines 42–48), plus the classifier's
private history (spec-modelled, owned by the tarefa3 module) and the
wall-clock counter backing `get_absolute_time`. -/
structure GlobalState where
  media : ℚ
  t : tendencia_t
  g_executar_ciclo_tarefas : Bool
  ini_tarefa1 : ℕ
  fim_tarefa1 : ℕ
  ini_tarefa2 : ℕ
  fim_tarefa2 : ℕ
  ini_tarefa3 : ℕ
  fim_tarefa3 : ℕ
  ini_tarefa4 : ℕ
  fim_tarefa4 : ℕ
  hist : Option ℚ
  clock : ℕ
deriving DecidableEq, Repr

/-- Observable external effects of one step of the program. -/
inductive Event where
  | amostra : ℚ → Event
  | analisa : ℚ → tendencia_t → Event
  | exibir_oled : ℚ → tendencia_t → Event
  | matriz_cor : tendencia_t → Event
  | npSetAll : Event
  | npWrite : Event
  | npClear : Event
  | sleep_ms : ℕ → Event
  | serial : String → Event
deriving DecidableEq, Repr

/-- Reading the hardware clock: returns the current time and lets time pass. -/
def get_absolute_time (g : GlobalState) : ℕ × GlobalState :=
  (g.clock, { g with clock := g.clock + 1 })

/-- `absolute_time_diff_us` of `main.c` lines 98–101. -/
def absolute_time_diff_us (ini fim : ℕ) : ℤ :=
  (fim : ℤ) - (ini : ℤ)

/-- The timer callback, `main.c` lines 53–57: sets the flag, performs no
other work (no events), and returns `true` so the timer keeps repeating. -/
def repeating_timer_callback_principal (g : GlobalState) :
    GlobalState × List Event × Bool :=
  ({ g with g_executar_ciclo_tarefas := true }, [], true)

/-- `executar_tarefa_1_leitura_temp`, `main.c` lines 118–124: timestamps the
blocking DMA mean-temperature acquisition and stores its result in `media`.
The value returned by the hardware is the parameter `leitura`. -/
def executar_tarefa_1_leitura_temp (leitura : ℚ) (g : GlobalState) :
    GlobalState × List Event :=
  let (t0, g) := get_absolute_time g
  let g := { g with ini_tarefa1 := t0 }
  let g := { g with media := leitura }
  let (t1, g) := get_absolute_time g
  ({ g with fim_tarefa1 := t1 }, [Event.amostra leitura])

/-- `executar_tarefa_2_analise_tendencia`, `main.c` lines 126–131: timestamps
(into the `tarefa3` timestamp pair, as in the source) the trend analysis of
the current `media` and stores the result in `t`. -/
def executar_tarefa_2_analise_tendencia (g : GlobalState) :
    GlobalState × List Event :=
  let (t0, g) := get_absolute_time g
  let g := { g with ini_tarefa3 := t0 }
  let r := tarefa3_analisa_tendencia g.hist g.media
  let g := { g with t := r.1, hist := r.2 }
  let (t1, g) := get_absolute_time g
  ({ g with fim_tarefa3 := t1 }, [Event.analisa g.media r.1])

/-- `executar_tarefa_3_display_oled`, `main.c` lines 133–138: timestamps
(into the `tarefa2` pair, as in the source) the OLED rendering of
(`media`, `t`). -/
def executar_tarefa_3_display_oled (g : GlobalState) :
    GlobalState × List Event :=
  let (t0, g) := get_absolute_time g
  let g := { g with ini_tarefa2 := t0 }
  let (t1, g) := get_absolute_time g
  ({ g with fim_tarefa2 := t1 }, [Event.exibir_oled g.media g.t])

/-- `executar_tarefa_4_controle_neopixel`, `main.c` lines 140–144: timestamps
the neopixel colour update driven by `t`. -/
def executar_tarefa_4_controle_neopixel (g : GlobalState) :
    GlobalState × List Event :=
  let (t0, g) := get_absolute_time g
  let g := { g with ini_tarefa4 := t0 }
  let (t1, g) := get_absolute_time g
  ({ g with fim_tarefa4 := t1 }, [Event.matriz_cor g.t])

/-- `executar_tarefa_5_extra_neopixel`, `main.c` lines 146–158: when the
temperature is below 1.0, drives a white flash pattern with two blocking
`sleep_ms(100)` pauses. -/
def executar_tarefa_5_extra_neopixel (g : GlobalState) :
    GlobalState × List Event :=
  if g.media < 1 then
    (g, [Event.npSetAll, Event.npWrite, Event.sleep_ms 100,
         Event.npClear, Event.npWrite, Event.sleep_ms 100])
  else
    (g, [])

/-- Two fixed decimal digits after the point, as printed by `printf "%.2f"`
(`main.c` line 104); the C library's exact tie-breaking is immaterial here. -/
def duasCasas (q : ℚ) : String :=
  let n : ℤ := ⌊q * 100 + 1/2⌋
  let m : ℕ := n.natAbs
  (if n < 0 then "-" else "") ++ toString (m / 100) ++ "." ++
    String.mk [Nat.digitChar (m / 10 % 10), Nat.digitChar (m % 10)]

/-- Three fixed decimal digits after the point, as printed by
`printf "%.3f"` for the per-task durations (`main.c` lines 104–109). -/
def tresCasas (q : ℚ) : String :=
  let n : ℤ := ⌊q * 1000 + 1/2⌋
  let m : ℕ := n.natAbs
  (if n < 0 then "-" else "") ++ toString (m / 1000) ++ "." ++
    String.mk [Nat.digitChar (m / 100 % 10), Nat.digitChar (m / 10 % 10),
               Nat.digitChar (m % 10)]

/-- The telemetry line printed at the end of each cycle, `main.c`
lines 98–110: temperature with two decimals, the four task durations in
seconds with three decimals, and the trend text. -/
def relatorioCiclo (g : GlobalState) : String :=
  "Temperatura: " ++ duasCasas g.media ++ " C | T1(Leitura): " ++
    tresCasas ((absolute_time_diff_us g.ini_tarefa1 g.fim_tarefa1 : ℚ) / 1000000) ++
    "s | T_Disp: " ++
    tresCasas ((absolute_time_diff_us g.ini_tarefa2 g.fim_tarefa2 : ℚ) / 1000000) ++
    "s | T_Tend: " ++
    tresCasas ((absolute_time_diff_us g.ini_tarefa3 g.fim_tarefa3 : ℚ) / 1000000) ++
    "s | T_NeoP: " ++
    tresCasas ((absolute_time_diff_us g.ini_tarefa4 g.fim_tarefa4 : ℚ) / 1000000) ++
    "s | Tend: " ++ tendencia_para_texto g.t

/-- The body of the `if (g_executar_ciclo_tarefas)` branch of the main loop
(`main.c` lines 91–110), after the flag has been cleared: the five task
wrappers in source order, then the telemetry `printf`. -/
def cicloTarefas (leitura : ℚ) (g : GlobalState) : GlobalState × List Event :=
  let (g, e1) := executar_tarefa_1_leitura_temp leitura g
  let (g, e5) := executar_tarefa_5_extra_neopixel g
  let (g, e2) := executar_tarefa_2_analise_tendencia g
  let (g, e3) := executar_tarefa_3_display_oled g
  let (g, e4) := executar_tarefa_4_controle_neopixel g
  (g, e1 ++ e5 ++ e2 ++ e3 ++ e4 ++ [Event.serial (relatorioCiclo g)])

/-- The atomic units the main context executes between possible timer
preemptions: the five task wrappers and the final telemetry `printf`. -/
inductive Tarefa where
  | t1 : Tarefa
  | t5 : Tarefa
  | t2an : Tarefa
  | t3disp : Tarefa
  | t4np : Tarefa
  | relatorio : Tarefa
deriving DecidableEq, Repr

/-- The task sequence of one cycle, in the source order of `main.c`
lines 91–110. -/
def sequenciaTarefas : List Tarefa := [Tarefa.t1, Tarefa.t5, Tarefa.t2an,
  Tarefa.t3disp, Tarefa.t4np, Tarefa.relatorio]

/-- Dispatch one atomic unit of the main context. -/
def runTarefa (leitura : ℚ) (g : GlobalState) : Tarefa → GlobalState × List Event
  | Tarefa.t1 => executar_tarefa_1_leitura_temp leitura g
  | Tarefa.t5 => executar_tarefa_5_extra_neopixel g
  | Tarefa.t2an => executar_tarefa_2_analise_tendencia g
  | Tarefa.t3disp => executar_tarefa_3_display_oled g
  | Tarefa.t4np => executar_tarefa_4_controle_neopixel g
  | Tarefa.relatorio => (g, [Event.serial (relatorioCiclo g)])

/-- Whole-system state: the globals, the tasks still pending in the in-flight
cycle (`[]` when the main loop is back at its poll point), the number of
timer ticks fired, the number of completed cycles, and the output trace. -/
structure SysState where
  g : GlobalState
  pend : List Tarefa
  ticks : ℕ
  ciclos : ℕ
  saida : List Event
deriving DecidableEq, Repr

/-- A scheduler step: either the timer callback fires (it may preempt the
main context at any task boundary) or the main context advances by one
atomic unit (a poll of the flag, or one pending task). -/
inductive Passo where
  | tick : Passo
  | principal : Passo
deriving DecidableEq, Repr

/-- One step of the interleaved system.  `sensor` gives the mean returned by
the DMA acquisition hardware for each cycle index. -/
def sysStep (sensor : ℕ → ℚ) (s : SysState) : Passo → SysState
  | Passo.tick =>
      let r := repeating_timer_callback_principal s.g
      { s with g := r.1, ticks := s.ticks + 1, saida := s.saida ++ r.2.1 }
  | Passo.principal =>
      match s.pend with
      | [] =>
          if s.g.g_executar_ciclo_tarefas then
            { s with g := { s.g with g_executar_ciclo_tarefas := false },
                     pend := sequenciaTarefas }
          else s
      | tf :: resto =>
          let r := runTarefa (sensor s.ciclos) s.g tf
          { s with g := r.1, pend := resto, saida := s.saida ++ r.2,
                   ciclos := if resto.isEmpty then s.ciclos + 1 else s.ciclos }

/-- Run a schedule of steps. -/
def sysRun (sensor : ℕ → ℚ) (s : SysState) (passos : List Passo) : SysState :=
  passos.foldl (sysStep sensor) s

/-- The globals at program start: C zero-initialisation, empty classifier
history. -/
def estadoInicial : GlobalState :=
  { media := 0, t := tendencia_t.Unknown, g_executar_ciclo_tarefas := false,
    ini_tarefa1 := 0, fim_tarefa1 := 0, ini_tarefa2 := 0, fim_tarefa2 := 0,
    ini_tarefa3 := 0, fim_tarefa3 := 0, ini_tarefa4 := 0, fim_tarefa4 := 0,
    hist := none, clock := 0 }

/-- The system state right after a successful timer registration. -/
def sysInicial : SysState :=
  { g := estadoInicial, pend := [], ticks := 0, ciclos := 0, saida := [] }

/-- `main`, lines 76–113: if registering the repeating timer fails, print the
error and spin forever in `tight_loop_contents()` (a no-op each iteration);
otherwise run the flag-driven main loop under the given schedule. -/
def mainPrograma (regOk : Bool) (sensor : ℕ → ℚ) (passos : List Passo) : SysState :=
  if regOk then
    sysRun sensor sysInicial passos
  else
    passos.foldl (fun s _ => s)
      { sysInicial with saida := [Event.serial "Falha ao adicionar o timer principal!"] }

/-- Recognises DMA acquisition events. -/
def ehAmostra : Event → Bool
  | Event.amostra _ => true
  | _ => false

/-- Recognises trend-analysis events. -/
def ehAnalisa : Event → Bool
  | Event.analisa _ _ => true
  | _ => false

/-- Recognises OLED rendering events. -/
def ehExibir : Event → Bool
  | Event.exibir_oled _ _ => true
  | _ => false

/-- Recognises neopixel trend-indication events. -/
def ehMatriz : Event → Bool
  | Event.matriz_cor _ => true
  | _ => false

/-- Recognises blocking `sleep_ms` events. -/
def ehSleep : Event → Bool
  | Event.sleep_ms _ => true
  | _ => false

/-- Recognises serial `printf` events. -/
def ehSerial : Event → Bool
  | Event.serial _ => true
  | _ => false

/-- A constant sensor used for concrete runs. -/
def sensor25 : ℕ → ℚ := fun _ => 25

/-! ## Helper lemmas -/

/-- None of the main-context atomic units touches the cycle-request flag:
only the poll point of the main loop clears it and only the callback sets
it. -/
theorem runTarefa_flag (leitura : ℚ) (g : GlobalState) (tf : Tarefa) :
    (runTarefa leitura g tf).1.g_executar_ciclo_tarefas =
      g.g_executar_ciclo_tarefas := by
  cases tf <;>
    simp only [runTarefa, executar_tarefa_1_leitura_temp,
      executar_tarefa_5_extra_neopixel, executar_tarefa_2_analise_tendencia,
      executar_tarefa_3_display_oled, executar_tarefa_4_controle_neopixel,
      get_absolute_time]
  split <;> rfl

/-- Folding a function that ignores its list argument is the identity. -/
theorem foldl_fst {α β : Type} (l : List β) (x : α) :
    l.foldl (fun a _ => a) x = x := by
  induction l with
  | nil => rfl
  | cons b bs ih => simp [List.foldl_cons, ih]

/-- Running a schedule that is a concatenation. -/
theorem sysRun_append (sensor : ℕ → ℚ) (s : SysState) (p q : List Passo) :
    sysRun sensor s (p ++ q) = sysRun sensor (sysRun sensor s p) q := by
  simp [sysRun, List.foldl_append]

/-- One or more consecutive timer ticks coalesce: the globals end with the
flag set (setting an already-set flag changes nothing) and only the tick
counter records how many fired. -/
theorem sysRun_ticks (sensor : ℕ → ℚ) (s : SysState) (n : ℕ) (hn : 1 ≤ n) :
    sysRun sensor s (List.replicate n Passo.tick) =
      { s with g := { s.g with g_executar_ciclo_tarefas := true },
               ticks := s.ticks + n } := by
  induction n generalizing s with
  | zero => exact absurd hn (by simp)
  | succ k ih =>
    rcases Nat.eq_zero_or_pos k with hk | hk
    · subst hk
      simp [sysRun, sysStep, repeating_timer_callback_principal]
    · have step :
          sysRun sensor s (List.replicate (k + 1) Passo.tick) =
            sysRun sensor (sysStep sensor s Passo.tick)
              (List.replicate k Passo.tick) := by
        simp [sysRun, List.replicate_succ]
      rw [step, ih _ hk]
      simp [sysStep, repeating_timer_callback_principal]
      omega

/-- The exact event trace of one task cycle: the acquisition, then (when the
reading is below 1.0) the blocking neopixel flash pattern, then the trend
analysis of that same reading, the OLED rendering, the neopixel indication —
all three carrying the trend classified from this cycle's reading — and
finally the single telemetry line. -/
theorem cicloTarefas_saida (leitura : ℚ) (g : GlobalState) :
    (cicloTarefas leitura g).2 =
      [Event.amostra leitura] ++
      (if leitura < 1 then
        [Event.npSetAll, Event.npWrite, Event.sleep_ms 100,
         Event.npClear, Event.npWrite, Event.sleep_ms 100]
       else []) ++
      [Event.analisa leitura (tarefa3_analisa_tendencia g.hist leitura).1,
       Event.exibir_oled leitura (tarefa3_analisa_tendencia g.hist leitura).1,
       Event.matriz_cor (tarefa3_analisa_tendencia g.hist leitura).1,
       Event.serial (relatorioCiclo (cicloTarefas leitura g).1)] := by
  by_cases h : leitura < 1 <;>
    simp [cicloTarefas, executar_tarefa_1_leitura_temp,
      executar_tarefa_5_extra_neopixel, executar_tarefa_2_analise_tendencia,
      executar_tarefa_3_display_oled, executar_tarefa_4_controle_neopixel,
      get_absolute_time, h]

/-- After a cycle, `media` holds this cycle's reading. -/
theorem cicloTarefas_media (leitura : ℚ) (g : GlobalState) :
    (cicloTarefas leitura g).1.media = leitura := by
  by_cases h : leitura < 1 <;>
    simp [cicloTarefas, executar_tarefa_1_leitura_temp,
      executar_tarefa_5_extra_neopixel, executar_tarefa_2_analise_tendencia,
      executar_tarefa_3_display_oled, executar_tarefa_4_controle_neopixel,
      get_absolute_time, h]

/-- After a cycle, `t` holds the trend classified from this cycle's
reading. -/
theorem cicloTarefas_t (leitura : ℚ) (g : GlobalState) :
    (cicloTarefas leitura g).1.t =
      (tarefa3_analisa_tendencia g.hist leitura).1 := by
  by_cases h : leitura < 1 <;>
    simp [cicloTarefas, executar_tarefa_1_leitura_temp,
      executar_tarefa_5_extra_neopixel, executar_tarefa_2_analise_tendencia,
      executar_tarefa_3_display_oled, executar_tarefa_4_controle_neopixel,
      get_absolute_time, h]

/-- A cycle never touches the cycle-request flag. -/
theorem cicloTarefas_flag (leitura : ℚ) (g : GlobalState) :
    (cicloTarefas leitura g).1.g_executar_ciclo_tarefas =
      g.g_executar_ciclo_tarefas := by
  by_cases h : leitura < 1 <;>
    simp [cicloTarefas, executar_tarefa_1_leitura_temp,
      executar_tarefa_5_extra_neopixel, executar_tarefa_2_analise_tendencia,
      executar_tarefa_3_display_oled, executar_tarefa_4_controle_neopixel,
      get_absolute_time, h]

/-- Coherence of the two granularities: from the poll point with the flag
set, seven uninterrupted main-context steps (the poll plus the six atomic
units) perform exactly the atomic cycle of `cicloTarefas`: the flag is
consumed, the cycle counter advances by one, the trace grows by the cycle's
events, and the main loop is back at its poll point. -/
theorem sysRun_ciclo (sensor : ℕ → ℚ) (s : SysState) (hp : s.pend = [])
    (hf : s.g.g_executar_ciclo_tarefas = true) :
    sysRun sensor s (List.replicate 7 Passo.principal) =
      { s with
          g := (cicloTarefas (sensor s.ciclos)
                  { s.g with g_executar_ciclo_tarefas := false }).1,
          pend := [],
          ciclos := s.ciclos + 1,
          saida := s.saida ++ (cicloTarefas (sensor s.ciclos)
                  { s.g with g_executar_ciclo_tarefas := false }).2 } := by
  by_cases h : sensor s.ciclos < 1 <;>
    simp [sysRun, List.replicate, sysStep, hp, hf, sequenciaTarefas, runTarefa,
      cicloTarefas, executar_tarefa_1_leitura_temp,
      executar_tarefa_5_extra_neopixel, executar_tarefa_2_analise_tendencia,
      executar_tarefa_3_display_oled, executar_tarefa_4_controle_neopixel,
      get_absolute_time, h]

/-- The number of cycles already started but not yet counted in `ciclos`:
one for a set request flag, one for an in-flight cycle. -/
theorem carga_invariante (sensor : ℕ → ℚ) (s : SysState) (p : Passo)
    (h : s.ciclos + ((if s.g.g_executar_ciclo_tarefas then 1 else 0) +
          (if s.pend.isEmpty then 0 else 1)) ≤ s.ticks) :
    (sysStep sensor s p).ciclos +
        ((if (sysStep sensor s p).g.g_executar_ciclo_tarefas then 1 else 0) +
         (if (sysStep sensor s p).pend.isEmpty then 0 else 1)) ≤
      (sysStep sensor s p).ticks := by
  cases p with
  | tick =>
      simp only [sysStep, repeating_timer_callback_principal] at *
      split at h <;> split <;> omega
  | principal =>
      rcases hp : s.pend with _ | ⟨tf, resto⟩
      · by_cases hf : s.g.g_executar_ciclo_tarefas
        · simp [hp, hf] at h
          simp [sysStep, hp, hf, sequenciaTarefas]
          omega
        · simp [hp, hf] at h
          simp [sysStep, hp, hf]
          omega
      · by_cases hf : s.g.g_executar_ciclo_tarefas
        all_goals
          simp [hp, hf] at h
          simp only [sysStep, hp]
          rw [runTarefa_flag]
          rcases resto with _ | ⟨tg, resto2⟩ <;> simp [hf] <;> omega

/-- The cycle/tick inequality is preserved along any schedule. -/
theorem carga_invariante_run (sensor : ℕ → ℚ) (passos : List Passo) :
    ∀ s : SysState,
      s.ciclos + ((if s.g.g_executar_ciclo_tarefas then 1 else 0) +
            (if s.pend.isEmpty then 0 else 1)) ≤ s.ticks →
      (sysRun sensor s passos).ciclos +
          ((if (sysRun sensor s passos).g.g_executar_ciclo_tarefas then 1 else 0) +
           (if (sysRun sensor s passos).pend.isEmpty then 0 else 1)) ≤
        (sysRun sensor s passos).ticks := by
  induction passos with
  | nil => intro s h; simpa [sysRun] using h
  | cons p ps ih =>
      intro s h
      have h2 := carga_invariante sensor s p h
      simpa [sysRun, List.foldl_cons] using ih (sysStep sensor s p) h2

/-- Each trend category renders to one of the four fixed names. -/
theorem tendencia_para_texto_fixo (tr : tendencia_t) :
    tendencia_para_texto tr ∈
      (["Indefinida", "Subindo", "Caindo", "Estavel"] : List String) := by
  cases tr <;> simp [tendencia_para_texto]

/-- The `%.2f` rendering always carries exactly two digits after the
point. -/
theorem duasCasas_dois_digitos (q : ℚ) :
    ∃ cab frac : String,
      duasCasas q = cab ++ "." ++ frac ∧ frac.length = 2 := by
  exact ⟨(if (⌊q * 100 + 1/2⌋ : ℤ) < 0 then "-" else "") ++
      toString ((⌊q * 100 + 1/2⌋ : ℤ).natAbs / 100),
    String.mk [Nat.digitChar ((⌊q * 100 + 1/2⌋ : ℤ).natAbs / 10 % 10),
               Nat.digitChar ((⌊q * 100 + 1/2⌋ : ℤ).natAbs % 10)],
    rfl, rfl⟩

/-! ## Claims -/

/-- C1: the periodic timer callback only requests a new task cycle — it sets
`g_executar_ciclo_tarefas` and does nothing else — performs no blocking work
itself (it emits no events: no acquisition, no sleep, no output), and
returns `true` so the timer keeps repeating; accordingly, in the interleaved
system a tick never extends the I/O trace, so sampling only ever happens in
main-context steps. -/
theorem callback_apenas_sinaliza_e_repete (g : GlobalState) (sensor : ℕ → ℚ)
    (s : SysState) :
    (repeating_timer_callback_principal g).2.2 = true ∧
    (repeating_timer_callback_principal g).2.1 = [] ∧
    (repeating_timer_callback_principal g).1 =
      { g with g_executar_ciclo_tarefas := true } ∧
    (sysStep sensor s Passo.tick).saida = s.saida := by
  refine ⟨rfl, rfl, rfl, ?_⟩
  simp [sysStep, repeating_timer_callback_principal]

/-- C5: a timer-callback firing, at any point of the main loop (any system
state, mid-cycle included), writes only the boolean request flag: `media`,
`t`, the classifier history, every per-task timestamp and the clock are left
unchanged, as are the pending tasks of the in-flight cycle and the completed
cycle count. -/
theorem callback_escreve_apenas_flag (sensor : ℕ → ℚ) (s : SysState) :
    (sysStep sensor s Passo.tick).g.g_executar_ciclo_tarefas = true ∧
    (sysStep sensor s Passo.tick).g.media = s.g.media ∧
    (sysStep sensor s Passo.tick).g.t = s.g.t ∧
    (sysStep sensor s Passo.tick).g.hist = s.g.hist ∧
    (sysStep sensor s Passo.tick).g.ini_tarefa1 = s.g.ini_tarefa1 ∧
    (sysStep sensor s Passo.tick).g.fim_tarefa1 = s.g.fim_tarefa1 ∧
    (sysStep sensor s Passo.tick).g.ini_tarefa2 = s.g.ini_tarefa2 ∧
    (sysStep sensor s Passo.tick).g.fim_tarefa2 = s.g.fim_tarefa2 ∧
    (sysStep sensor s Passo.tick).g.ini_tarefa3 = s.g.ini_tarefa3 ∧
    (sysStep sensor s Passo.tick).g.fim_tarefa3 = s.g.fim_tarefa3 ∧
    (sysStep sensor s Passo.tick).g.ini_tarefa4 = s.g.ini_tarefa4 ∧
    (sysStep sensor s Passo.tick).g.fim_tarefa4 = s.g.fim_tarefa4 ∧
    (sysStep sensor s Passo.tick).g.clock = s.g.clock ∧
    (sysStep sensor s Passo.tick).pend = s.pend ∧
    (sysStep sensor s Passo.tick).ciclos = s.ciclos :=
  ⟨rfl, rfl, rfl, rfl, rfl, rfl, rfl, rfl, rfl, rfl, rfl, rfl, rfl, rfl, rfl⟩

/-- C3: along every interleaving of timer ticks and main-loop steps from
program start, the number of completed task cycles never exceeds the number
of timer ticks that have fired. -/
theorem ciclos_nunca_excedem_ticks (sensor : ℕ → ℚ) (passos : List Passo) :
    (sysRun sensor sysInicial passos).ciclos ≤
      (sysRun sensor sysInicial passos).ticks := by
  have h := carga_invariante_run sensor passos sysInicial
    (by simp [sysInicial, estadoInicial])
  omega

/-- C4: within every completed cycle the observable steps run in dependency
order — the acquisition first, then the trend analysis of that same reading,
then the OLED rendering, then the neopixel indication, then the telemetry
report — and every consumer (display, neopixel, telemetry) observes the
trend classified from this very cycle's reading, paired with this cycle's
temperature: after the cycle `media` is this cycle's reading and `t` is the
classifier's output on it. -/
theorem ciclo_ordem_dependencias_e_frescor (leitura : ℚ) (g : GlobalState) :
    (cicloTarefas leitura g).2 =
      [Event.amostra leitura] ++
      (if leitura < 1 then
        [Event.npSetAll, Event.npWrite, Event.sleep_ms 100,
         Event.npClear, Event.npWrite, Event.sleep_ms 100]
       else []) ++
      [Event.analisa leitura (tarefa3_analisa_tendencia g.hist leitura).1,
       Event.exibir_oled leitura (tarefa3_analisa_tendencia g.hist leitura).1,
       Event.matriz_cor (tarefa3_analisa_tendencia g.hist leitura).1,
       Event.serial (relatorioCiclo (cicloTarefas leitura g).1)] ∧
    (cicloTarefas leitura g).1.media = leitura ∧
    (cicloTarefas leitura g).1.t = (tarefa3_analisa_tendencia g.hist leitura).1 :=
  ⟨cicloTarefas_saida leitura g, cicloTarefas_media leitura g,
   cicloTarefas_t leitura g⟩

/-- C6: the pending-cycle signal is a single boolean, so any number n ≥ 1 of
ticks arriving while the main loop is at its poll point with no request
pending coalesce: the globals end exactly as after a single tick, no output
is produced and no cycle completes while they arrive; the following
uninterrupted poll-plus-cycle then executes exactly one task cycle and
returns to the poll point with the flag clear; and a main-loop poll with no
pending tick changes nothing at all. -/
theorem ticks_coalescem_um_ciclo (sensor : ℕ → ℚ) (s : SysState) (n : ℕ)
    (hn : 1 ≤ n) (hp : s.pend = [])
    (hf : s.g.g_executar_ciclo_tarefas = false) :
    (sysRun sensor s (List.replicate n Passo.tick)).g =
      (sysStep sensor s Passo.tick).g ∧
    (sysRun sensor s (List.replicate n Passo.tick)).saida = s.saida ∧
    (sysRun sensor s (List.replicate n Passo.tick)).ciclos = s.ciclos ∧
    (sysRun sensor s (List.replicate n Passo.tick ++
        List.replicate 7 Passo.principal)).ciclos = s.ciclos + 1 ∧
    (sysRun sensor s (List.replicate n Passo.tick ++
        List.replicate 7 Passo.principal)).pend = [] ∧
    (sysRun sensor s (List.replicate n Passo.tick ++
        List.replicate 7 Passo.principal)).g.g_executar_ciclo_tarefas = false ∧
    sysStep sensor s Passo.principal = s := by
  have ht := sysRun_ticks sensor s n hn
  have hc := sysRun_ciclo sensor
    { s with g := { s.g with g_executar_ciclo_tarefas := true },
             ticks := s.ticks + n } hp rfl
  refine ⟨?_, ?_, ?_, ?_, ?_, ?_, ?_⟩
  · rw [ht]; simp [sysStep, repeating_timer_callback_principal]
  · rw [ht]
  · rw [ht]
  · rw [sysRun_append, ht, hc]
  · rw [sysRun_append, ht, hc]
  · rw [sysRun_append, ht, hc]
    exact cicloTarefas_flag _ _
  · simp [sysStep, hp, hf]

/-- Witness for the coalescing theorem at a concrete input: from the initial
state, two ticks followed by the poll and the six task steps complete
exactly one cycle. -/
theorem ticks_coalescem_um_ciclo_witness :
    (1 ≤ 2 ∧ sysInicial.pend = [] ∧
      sysInicial.g.g_executar_ciclo_tarefas = false) ∧
    (sysRun sensor25 sysInicial (List.replicate 2 Passo.tick ++
        List.replicate 7 Passo.principal)).ciclos = sysInicial.ciclos + 1 :=
  ⟨⟨by decide, rfl, rfl⟩,
   (ticks_coalescem_um_ciclo sensor25 sysInicial 2 (by decide) rfl rfl).2.2.2.1⟩

/-- C2 fails on the code: a timer tick that fires while the previous cycle
is still in flight is not dropped — it sets the request flag, so the main
loop arms one more cycle as soon as the in-flight one completes — and no
overrun counter exists anywhere in the state.  Concretely: after a tick and
the poll the cycle is in flight; a second tick then leaves the request flag
set, and once both cycles run to completion two cycles have completed, where
the claim predicts the second tick is dropped and only one cycle runs. -/
theorem tick_em_voo_arma_novo_ciclo :
    (sysRun sensor25 sysInicial [Passo.tick, Passo.principal]).pend ≠ [] ∧
    (sysRun sensor25 sysInicial
        [Passo.tick, Passo.principal, Passo.tick]).g.g_executar_ciclo_tarefas
      = true ∧
    (sysRun sensor25 sysInicial ([Passo.tick, Passo.principal, Passo.tick] ++
        List.replicate 6 Passo.principal ++
        List.replicate 7 Passo.principal)).ciclos = 2 := by
  refine ⟨by decide, by decide, ?_⟩
  simp [sysRun, sysStep, runTarefa, sequenciaTarefas, sysInicial, estadoInicial,
    repeating_timer_callback_principal, sensor25, executar_tarefa_1_leitura_temp,
    executar_tarefa_5_extra_neopixel, executar_tarefa_2_analise_tendencia,
    executar_tarefa_3_display_oled, executar_tarefa_4_controle_neopixel,
    get_absolute_time]

/-- C2 amended: if a timer tick fires while the previous cycle is still in
flight, the tick is coalesced into the single boolean request flag — arming
one more cycle for when the main loop next polls — rather than dropped, and
no overrun counter exists (only the tick count grows); the in-flight cycle's
temperature and trend values, its pending tasks and the completed-cycle
count are unchanged by the tick. -/
theorem tick_durante_ciclo_coalesce (sensor : ℕ → ℚ) (s : SysState)
    (_h : s.pend ≠ []) :
    (sysStep sensor s Passo.tick).g.media = s.g.media ∧
    (sysStep sensor s Passo.tick).g.t = s.g.t ∧
    (sysStep sensor s Passo.tick).g.g_executar_ciclo_tarefas = true ∧
    (sysStep sensor s Passo.tick).pend = s.pend ∧
    (sysStep sensor s Passo.tick).ciclos = s.ciclos ∧
    (sysStep sensor s Passo.tick).ticks = s.ticks + 1 :=
  ⟨rfl, rfl, rfl, rfl, rfl, rfl⟩

/-- Witness for the amended overrun behaviour at a concrete input: right
after a tick and the poll the cycle is in flight, and a tick fired there
sets the request flag while leaving the in-flight temperature unchanged. -/
theorem tick_durante_ciclo_coalesce_witness :
    (sysRun sensor25 sysInicial [Passo.tick, Passo.principal]).pend ≠ [] ∧
    (sysStep sensor25 (sysRun sensor25 sysInicial [Passo.tick, Passo.principal])
        Passo.tick).g.g_executar_ciclo_tarefas = true ∧
    (sysStep sensor25 (sysRun sensor25 sysInicial [Passo.tick, Passo.principal])
        Passo.tick).g.media =
      (sysRun sensor25 sysInicial [Passo.tick, Passo.principal]).g.media :=
  ⟨by decide,
   (tick_durante_ciclo_coalesce sensor25 _ (by decide)).2.2.1,
   (tick_durante_ciclo_coalesce sensor25 _ (by decide)).1⟩

/-- C7 fails on the code: the sampling interface hands `main` a bare float
and the main loop checks nothing, so no cycle is ever abandoned.
Concretely, even for a reading of 0 — the kind of unvalidated value a
faulting acquisition would surface through the float interface — the cycle
still performs the trend analysis, the OLED rendering, the neopixel
indication, and emits its telemetry line. -/
theorem falha_amostra_ainda_emite_telemetria :
    ((cicloTarefas 0 estadoInicial).2.filter ehSerial).length = 1 ∧
    ((cicloTarefas 0 estadoInicial).2.filter ehAnalisa).length = 1 ∧
    ((cicloTarefas 0 estadoInicial).2.filter ehExibir).length = 1 ∧
    ((cicloTarefas 0 estadoInicial).2.filter ehMatriz).length = 1 := by
  rw [cicloTarefas_saida]
  norm_num [ehSerial, ehAnalisa, ehExibir, ehMatriz]

/-- C7 amended: the sampler interface returns a bare float with no failure
signal, and the main loop never abandons a cycle: whatever value the
acquisition returns, every cycle performs exactly one trend analysis, one
OLED rendering, one neopixel indication, and emits exactly one telemetry
line, with the request flag left as it was (so the loop proceeds normally to
the next poll). -/
theorem ciclo_nunca_abandonado (leitura : ℚ) (g : GlobalState) :
    ((cicloTarefas leitura g).2.filter ehSerial).length = 1 ∧
    ((cicloTarefas leitura g).2.filter ehAnalisa).length = 1 ∧
    ((cicloTarefas leitura g).2.filter ehExibir).length = 1 ∧
    ((cicloTarefas leitura g).2.filter ehMatriz).length = 1 ∧
    (cicloTarefas leitura g).1.g_executar_ciclo_tarefas =
      g.g_executar_ciclo_tarefas := by
  refine ⟨?_, ?_, ?_, ?_, cicloTarefas_flag leitura g⟩ <;>
    rw [cicloTarefas_saida] <;>
    by_cases h : leitura < 1 <;>
    simp [h, ehSerial, ehAnalisa, ehExibir, ehMatriz]

/-- C8 fails on the code (failing input: a reading of 1/2, below 1.0): the
task sequence run by the main loop contains the conditional extra neopixel
task, which blocks in two `sleep_ms(100)` pauses outside the delegated
sampler, presenter and indicator calls; with a reading of 25 no pause
occurs, showing the blocking is conditional. -/
theorem tarefa5_pausa_bloqueante_condicional :
    (executar_tarefa_5_extra_neopixel
        { estadoInicial with media := 1/2 }).2.filter ehSleep =
      [Event.sleep_ms 100, Event.sleep_ms 100] ∧
    ((cicloTarefas (1/2) estadoInicial).2.filter ehSleep).length = 2 ∧
    ((cicloTarefas 25 estadoInicial).2.filter ehSleep).length = 0 := by
  refine ⟨?_, ?_, ?_⟩
  · norm_num [executar_tarefa_5_extra_neopixel, ehSleep]
  · rw [cicloTarefas_saida]
    norm_num [ehSleep]
  · rw [cicloTarefas_saida]
    norm_num [ehSleep]

/-- C9: if registering the repeating timer fails, the failure is visibly
reported — the serial output is exactly the error line — and the process
stays in the idle safety loop forever: under every schedule no task cycle
completes, nothing beyond the error line is ever output (so no sampling and
no telemetry), and the globals never change. -/
theorem falha_registro_loop_seguro (sensor : ℕ → ℚ) (passos : List Passo) :
    (mainPrograma false sensor passos).saida =
      [Event.serial "Falha ao adicionar o timer principal!"] ∧
    (mainPrograma false sensor passos).ciclos = 0 ∧
    (mainPrograma false sensor passos).g = estadoInicial := by
  simp [mainPrograma, foldl_fst, sysInicial]

/-- C10: every completed cycle emits exactly one telemetry line, and that
line is the fixed `relatorioCiclo` format applied to this cycle's data: its
temperature is rendered by `duasCasas`, which always carries exactly two
digits after the decimal point, and its trend is rendered by
`tendencia_para_texto`, whose value is always one of the four fixed category
names. -/
theorem telemetria_uma_linha_formato_fixo (leitura : ℚ) (g : GlobalState) :
    (cicloTarefas leitura g).2.filter ehSerial =
      [Event.serial (relatorioCiclo (cicloTarefas leitura g).1)] ∧
    (∃ cab frac : String,
      duasCasas (cicloTarefas leitura g).1.media = cab ++ "." ++ frac ∧
      frac.length = 2) ∧
    tendencia_para_texto (cicloTarefas leitura g).1.t ∈
      (["Indefinida", "Subindo", "Caindo", "Estavel"] : List String) := by
  refine ⟨?_, duasCasas_dois_digitos _, tendencia_para_texto_fixo _⟩
  rw [cicloTarefas_saida]
  by_cases h : leitura < 1 <;> simp [h, ehSerial]

end TempCycleDMA
